import Mathlib

/-!
# slackcmdhandler: argument translation, command building and the request handler

A shallow embedding of `main.go` (`prepareCommandLineArgSyntax`, `initializeHandler`) and of
`utilities/utilities.go` (`LogEvent`, `SendErrorToSlack`).

* Go strings are Lean `String`s; the library string functions the code calls
  (`strings.Fields`, `strings.Replace`, `regexp.ReplaceAllString` for the one pattern used)
  are written out over `List Char`.
* `url.Values` (a Go map from key to a slice of values) is the list of its entries in the order
  the `range` loop of that run visits them.
* Everything the handler does to the outside world (writes to the `ResponseWriter`, the log
  file, statsd, the child process, the webhook) is recorded as a list of `Event`s; what the
  outside world answers (clock, file errors, the child's output and exit) is the `Env` argument.
* A run-time panic before anything has happened (indexing an empty slice) is the result `none`;
  a panic inside the goroutine, after which the process dies, is the last event of the trace.
-/

namespace SlackCmdHandler

/-! ## url.Values -/

/-- The Go type `url.Values`, `map[string][]string`, as its entries in iteration order. -/
abbrev Values := List (String × List String)

/-- The method `url.Values.Get`: the first value of the key, or the empty string when the key
is absent or its slice is empty. -/
def Values.Get (v : Values) (key : String) : String :=
  match v.lookup key with
  | some (x :: _) => x
  | _ => ""

/-- What `url.ParseQuery` builds: it only ever appends a value to a key's slice, so no entry has
an empty slice. -/
def Values.Parsed (v : Values) : Prop := ∀ kv ∈ v, kv.2 ≠ []

instance (v : Values) : Decidable v.Parsed := by
  unfold Values.Parsed; infer_instance

/-! ## main.go, lines 17-34 -/

/-- The body of the `range` loop of `prepareCommandLineArgSyntax` (lines 22-32), with
`cmdLineArgList` as the accumulator. `value[0]` on an empty slice panics: `none`. -/
def prepareLoop (loader : String) : List String → Values → Option (List String)
  | cmdLineArgList, [] => some cmdLineArgList
  | cmdLineArgList, (key, value) :: rest =>
    if key = "plugin" ∨ key = "loader" then
      prepareLoop loader cmdLineArgList rest
    else if loader = "python" then
      match value with
      | [] => none
      | v0 :: _ => prepareLoop loader (cmdLineArgList ++ ["-" ++ key, "\"" ++ v0 ++ "\""]) rest
    else if loader = "go" then
      match value with
      | [] => none
      | v0 :: _ => prepareLoop loader (cmdLineArgList ++ ["--" ++ key ++ "=\"" ++ v0 ++ "\""]) rest
    else
      prepareLoop loader cmdLineArgList rest

/-- The function `prepareCommandLineArgSyntax` of `main.go`. -/
def prepareCommandLineArgSyntax (loader : String) (queryParameters : Values) :
    Option (List String) :=
  prepareLoop loader [] queryParameters

/-! ## Library functions used by the handler -/

/-- The predicate `unicode.IsSpace`, which `strings.Fields` splits on. -/
def isSpace (c : Char) : Bool :=
  let n := c.toNat
  (9 ≤ n && n ≤ 13) || n == 32 || n == 0x85 || n == 0xA0 || n == 0x1680 ||
    (0x2000 ≤ n && n ≤ 0x200a) || n == 0x2028 || n == 0x2029 || n == 0x202f ||
    n == 0x205f || n == 0x3000

/-- The scan of `strings.Fields`: `cur` is the field being read. -/
def fieldsAux : List Char → List Char → List String
  | cur, [] => if cur = [] then [] else [String.mk cur]
  | cur, c :: cs =>
    if isSpace c then
      if cur = [] then fieldsAux [] cs else String.mk cur :: fieldsAux [] cs
    else fieldsAux (cur ++ [c]) cs

/-- The function `strings.Fields`: the maximal runs of non-space characters. -/
def Fields (s : String) : List String := fieldsAux [] s.data

/-- The class `\w` of Go regular expressions: `[0-9A-Za-z_]`. -/
def isWordChar (c : Char) : Bool := c.isAlphanum || c == (Char.ofNat 95)

/-- Replace every match of `\.\w+` by the empty string, left to right. The flag says that the
scan is inside a match, whose greedy `\w+` is still consuming. -/
def dropDotWord : Bool → List Char → List Char
  | _, [] => []
  | inMatch, c :: cs =>
    if inMatch && isWordChar c then dropDotWord true cs
    else if c == (Char.ofNat 46) && (cs.head?.map isWordChar).getD false then dropDotWord true cs
    else c :: dropDotWord false cs

/-- The expression `statsdPluginRegex.ReplaceAllString(plugin, "")` of line 114, where
`statsdPluginRegex` is `\.\w+` (line 52). -/
def statsdPluginRegex_ReplaceAllString (plugin : String) : String :=
  String.mk (dropDotWord false plugin.data)

/-- The call `strings.Replace(output, "\"", "\\\"", -1)` of `SendErrorToSlack`: every double
quote gets a backslash in front. -/
def escapeQuotes : List Char → List Char
  | [] => []
  | c :: cs => if c = '"' then '\\' :: '"' :: escapeQuotes cs else c :: escapeQuotes cs

/-! ## The outside world -/

/-- What the handler does to the outside world, one constructor per call that leaves the
process or writes to the caller. -/
inductive Event
  /-- The calls `fmt.Fprintf(w, ...)` and `fmt.Fprint(w, ...)` on the `ResponseWriter`. -/
  | Fprint (text : String)
  /-- The call `http.Error(w, text, code)`. -/
  | httpError (text : String) (code : Nat)
  /-- The call `os.OpenFile(name, O_RDWR|O_APPEND|O_CREATE, 0666)`. -/
  | OpenFile (name : String)
  /-- The call `logfile.WriteString(line)` on the file opened under `name`. -/
  | WriteString (name line : String)
  /-- The deferred `logfile.Close()`. -/
  | Close (name : String)
  /-- The calls `log.Printf` and `log.Println`, with the formatted message. -/
  | logPrint (text : String)
  /-- The call `client.Increment(bucket)` on the statsd client. -/
  | Increment (bucket : String)
  /-- The call `exec.Command(name, args...).CombinedOutput()`. -/
  | CombinedOutput (name : String) (args : List String)
  /-- The `go` statement of line 136: what follows it in the trace runs in the goroutine. -/
  | goStmt
  /-- The call `utilities.SendErrorToSlack(responseURL, output)` of line 148, with the values
  of its two arguments. -/
  | callSendErrorToSlack (responseURL output : String)
  /-- The call `client.Do(req)` of `SendErrorToSlack`: a POST of `body` to `url`. -/
  | httpPost (url contentType body : String)
  /-- The call `resp.Body.Close()` of `SendErrorToSlack`. -/
  | closeBody
  /-- The call `fmt.Printf` of `SendErrorToSlack`, to standard output. -/
  | Printf (text : String)
  /-- A run-time panic inside the goroutine: no `recover` is in place, the process dies and
  nothing follows. -/
  | panic
  deriving DecidableEq, Repr

/-- What the outside world answers during one request. -/
structure Env where
  /-- The value of `time.Now().Format(time.RFC850)`. -/
  now : String
  /-- The error of `os.OpenFile`, if it fails. -/
  openErr : Option String
  /-- The error of `logfile.WriteString`, if it fails. -/
  writeErr : Option String
  /-- The result of `CombinedOutput()` for a command: the captured output, and the error if the
  process could not be started or exited with a failure. -/
  run : String → List String → String × Option String
  /-- The error of `http.NewRequest("POST", responseURL, ...)` in `SendErrorToSlack`, if it
  fails: it does when `url.Parse` refuses the `response_url` of the request, as it refuses `%zz`. -/
  newRequestErr : Option String
  /-- The error of `client.Do`, if the POST fails. -/
  postErr : Option String

/-! ## utilities/utilities.go -/

/-- The constant `userNotificationErrorMsg` of `LogEvent` (line 18). -/
def userNotificationErrorMsg : String :=
  "Error opening or writing plugin execution to log.  Aborting.  Please contact Devops"

/-- The function `LogEvent` of `utilities.go`: the events it causes and the error it returns. -/
def LogEvent (env : Env) (pluginExecutionLog plugin loader : String) (queryParameters : Values) :
    List Event × Option String :=
  match env.openErr with
  | some err =>
    ([Event.OpenFile pluginExecutionLog, Event.Fprint userNotificationErrorMsg],
      some ("Error opening " ++ pluginExecutionLog ++ " for append.  Reason: " ++ err ++ "."))
  | none =>
    let line := "Time: [" ++ env.now ++ "] :: User: [ " ++ queryParameters.Get "user_name" ++
      " ] attempted to use loader: [ " ++ loader ++ " ] to execute plugin: [ " ++ plugin ++
      " ] with args: [ " ++ queryParameters.Get "text" ++ " ]\n"
    match env.writeErr with
    | some err =>
      ([Event.OpenFile pluginExecutionLog, Event.WriteString pluginExecutionLog line,
          Event.Fprint userNotificationErrorMsg, Event.Close pluginExecutionLog],
        some ("** Error writing to " ++ pluginExecutionLog ++ ".  Reason: " ++ err))
    | none =>
      ([Event.OpenFile pluginExecutionLog, Event.WriteString pluginExecutionLog line,
          Event.Close pluginExecutionLog], none)

/-- The byte slice `errorPayload` of `SendErrorToSlack` (lines 55-57). -/
def errorPayload (output : String) : String :=
  "\x7b\"text\": \"exception or error occurred in plugin:\n```" ++
    String.mk (escapeQuotes output.data) ++ "```\"\x7d"

/-- The function `SendErrorToSlack` of `utilities.go`: its events, or `none` when it panics.
The error of `http.NewRequest` is thrown away (line 58, `err` is assigned again on line 61); when
there is one, `req` is nil and `req.Header.Set` (line 59) dereferences it, before anything is
sent. -/
def SendErrorToSlack (env : Env) (responseURL output : String) : Option (List Event) :=
  match env.newRequestErr with
  | some _ => none
  | none =>
    match env.postErr with
    | some err =>
      some [Event.httpPost responseURL "application/json" (errorPayload output),
        Event.Printf ("Could not send error message to slack via HTTP POST.  Error: " ++ err)]
    | none =>
      some [Event.httpPost responseURL "application/json" (errorPayload output),
        Event.closeBody]

/-! ## main.go, lines 37-163 -/

/-- The map `loaderOpts` (lines 40-45). -/
def loaderOpts : List (String × String) :=
  [("python", "python"), ("python3", "python3"), ("node", "node"), ("go", "go run")]

/-- The loop of lines 70-75 over `loaderOpts`: the final values of `loaderAcceptable` and
`loaderShellCommand`. -/
def resolveLoader (loader : String) : Bool × String :=
  loaderOpts.foldl (fun st kv => if kv.1 = loader then (true, kv.2) else st) (false, "")

/-- How lines 47-101 of the handler end. -/
inductive Built
  /-- The request is refused at lines 78-81. -/
  | rejected
  /-- A run-time panic: an index out of range. -/
  | panicked
  /-- The values of `firstPartOfShellCommand` and `remainderOfShellCommand` after line 101. -/
  | command (firstPartOfShellCommand : String) (remainderOfShellCommand : List String)
  deriving DecidableEq, Repr

/-- Lines 47-101 of the handler: validation and the building of the command. -/
def buildCommand (queryParameters : Values) : Built :=
  let plugin := queryParameters.Get "plugin"
  let loader := queryParameters.Get "loader"
  let (loaderAcceptable, loaderShellCommand) := resolveLoader loader
  if plugin = "" ∨ loaderAcceptable = false then Built.rejected
  else
    let shellCommandParts := Fields loaderShellCommand
    match shellCommandParts with
    | [] => Built.panicked
    | firstPartOfShellCommand :: _ =>
      let remainderOfShellCommand :=
        if loaderShellCommand.utf8ByteSize > 1 then shellCommandParts.drop 1 else []
      match prepareCommandLineArgSyntax loader queryParameters with
      | none => Built.panicked
      | some slackArgList =>
        Built.command firstPartOfShellCommand
          (remainderOfShellCommand ++ ["/opt/slack-plugins/" ++ loader ++ "/" ++ plugin] ++
            slackArgList)

/-- The acknowledgment of line 104. -/
def ackText (plugin : String) : String :=
  "Executing plugin: " ++ plugin ++ ". It should send additional output shortly...\n"

/-- The message of lines 125 and 144. -/
def failureText (plugin : String) : String := "Failure executing " ++ plugin ++ "."

/-- Lines 116-161 of the handler: the execution of the built command, in the request (when
`jobRunnerUrl` is set) or in a goroutine. -/
def execute (env : Env) (queryParameters : Values) (firstPartOfShellCommand : String)
    (remainderOfShellCommand : List String) : List Event :=
  let plugin := queryParameters.Get "plugin"
  let jobRunnerURL := queryParameters.Get "jobRunnerUrl"
  let result := env.run firstPartOfShellCommand remainderOfShellCommand
  let output := result.1
  if jobRunnerURL ≠ "" then
    match result.2 with
    | some _ =>
      [Event.CombinedOutput firstPartOfShellCommand remainderOfShellCommand,
        Event.httpError (failureText plugin) 500]
    | none =>
      [Event.CombinedOutput firstPartOfShellCommand remainderOfShellCommand, Event.Fprint output]
  else
    match result.2 with
    | some err =>
      match SendErrorToSlack env (queryParameters.Get "response_url") output with
      | none =>
        [Event.goStmt, Event.CombinedOutput firstPartOfShellCommand remainderOfShellCommand,
          Event.httpError (failureText plugin) 500,
          Event.callSendErrorToSlack (queryParameters.Get "response_url") output, Event.panic]
      | some sent =>
        [Event.goStmt, Event.CombinedOutput firstPartOfShellCommand remainderOfShellCommand,
          Event.httpError (failureText plugin) 500,
          Event.callSendErrorToSlack (queryParameters.Get "response_url") output] ++ sent ++
          [Event.logPrint ("\n*** Failure executing " ++ plugin ++ ".  Reason: " ++ err ++
            "\nOutput: " ++ output)]
    | none =>
      [Event.goStmt, Event.CombinedOutput firstPartOfShellCommand remainderOfShellCommand,
        Event.logPrint ("\nPlugin " ++ plugin ++ " ran with args: " ++
          queryParameters.Get "text" ++ " -- successfully" ++ "\n")]

/-- Lines 103-161 of the handler: what it does once the command is built. -/
def serve (env : Env) (queryParameters : Values) (firstPartOfShellCommand : String)
    (remainderOfShellCommand : List String) : List Event :=
  let plugin := queryParameters.Get "plugin"
  let loader := queryParameters.Get "loader"
  let logged := LogEvent env "plugin-execution.log" plugin loader queryParameters
  match logged.2 with
  | some err =>
    [Event.Fprint (ackText plugin)] ++ logged.1 ++
      [Event.logPrint ("Error logging event. " ++ err ++ "\nAborted execution.\n")]
  | none =>
    [Event.Fprint (ackText plugin)] ++ logged.1 ++
      [Event.Increment (statsdPluginRegex_ReplaceAllString plugin)] ++
      execute env queryParameters firstPartOfShellCommand remainderOfShellCommand

/-- The handler returned by `initializeHandler` (lines 38-162), as the trace of one request;
`none` when the request panics. -/
def initializeHandler (env : Env) (queryParameters : Values) : Option (List Event) :=
  match buildCommand queryParameters with
  | Built.rejected =>
    some [Event.httpError "Plugin request not in appropriate format.\n" 400]
  | Built.panicked => none
  | Built.command firstPartOfShellCommand remainderOfShellCommand =>
    some (serve env queryParameters firstPartOfShellCommand remainderOfShellCommand)

/-! ## JSON, for the payload of the webhook -/

/-- The value of a hexadecimal digit. -/
def hexVal (c : Char) : Option Nat :=
  let n := c.toNat
  if 48 ≤ n ∧ n ≤ 57 then some (n - 48)
  else if 97 ≤ n ∧ n ≤ 102 then some (n - 87)
  else if 65 ≤ n ∧ n ≤ 70 then some (n - 55)
  else none

/-- The character a two-character escape of RFC 8259 stands for: the character after the
backslash is one of `"`, `\`, `/`, `b`, `f`, `n`, `r`, `t`. -/
def unescape (e : Char) : Option Char :=
  let n := e.toNat
  if n = 34 ∨ n = 92 ∨ n = 47 then some e
  else if n = 98 then some (Char.ofNat 8)
  else if n = 102 then some (Char.ofNat 12)
  else if n = 110 then some (Char.ofNat 10)
  else if n = 114 then some (Char.ofNat 13)
  else if n = 116 then some (Char.ofNat 9)
  else none

/-- JSON string syntax as in RFC 8259, read from just after the opening quote: the decoded
characters up to the closing quote, and the input after it. A quote ends the string, a backslash
starts an escape (`\uXXXX` or a two-character escape), and with `strict` a raw control character
(below U+0020) is refused, as the RFC asks; without it such a character is taken as it is. -/
def jsonString (strict : Bool) : List Char → Option (List Char × List Char)
  | [] => none
  | c :: cs =>
    if c.toNat = 34 then some ([], cs)
    else if c.toNat = 92 then
      match cs with
      | [] => none
      | e :: rest =>
        if e.toNat = 117 then
          match rest with
          | h1 :: h2 :: h3 :: h4 :: rest4 =>
            match hexVal h1, hexVal h2, hexVal h3, hexVal h4 with
            | some a, some b, some c4, some d =>
              (jsonString strict rest4).map
                (fun r => (Char.ofNat (((a * 16 + b) * 16 + c4) * 16 + d) :: r.1, r.2))
            | _, _, _, _ => none
          | _ => none
        else
          match unescape e with
          | some d => (jsonString strict rest).map (fun r => (d :: r.1, r.2))
          | none => none
    else if strict && decide (c.toNat < 32) then none
    else (jsonString strict cs).map (fun r => (c :: r.1, r.2))

/-- Skip JSON whitespace: space, tab, line feed, carriage return. -/
def skipWs : List Char → List Char
  | [] => []
  | c :: cs =>
    if c.toNat = 32 ∨ c.toNat = 9 ∨ c.toNat = 10 ∨ c.toNat = 13 then skipWs cs else c :: cs

/-- Read one given character. -/
def expectChar (n : Nat) : List Char → Option (List Char)
  | [] => none
  | c :: cs => if c.toNat = n then some cs else none

/-- The payload read as a JSON object with the single field `text` whose value is a string:
the decoded value of the field, or `none` when the payload is not such an object. -/
def decodeTextObject (strict : Bool) (payload : String) : Option String := do
  let r1 ← expectChar 123 (skipWs payload.data)
  let r2 ← expectChar 34 (skipWs r1)
  let name ← jsonString strict r2
  if name.1 ≠ "text".data then none
  else
    let r3 ← expectChar 58 (skipWs name.2)
    let r4 ← expectChar 34 (skipWs r3)
    let value ← jsonString strict r4
    let r5 ← expectChar 125 (skipWs value.2)
    if skipWs r5 = [] then some (String.mk value.1) else none

/-! ## Vocabulary of the statements -/

/-- The ids under which `loaderOpts` registers a loader. -/
def registeredLoaders : List String := ["python", "python3", "node", "go"]

/-- The text of the rejection of line 79. -/
def rejectText : String := "Plugin request not in appropriate format.\n"

/-- The plugin path of line 98. -/
def pluginPath (loader plugin : String) : String :=
  "/opt/slack-plugins/" ++ loader ++ "/" ++ plugin

/-- The request is refused: the handler returns, and has answered with status 400. -/
def Rejects (env : Env) (queryParameters : Values) : Prop :=
  ∃ tr, initializeHandler env queryParameters = some tr ∧ ∃ text, Event.httpError text 400 ∈ tr

/-- The event writes to the caller: a write on the `ResponseWriter` or `http.Error`. -/
def isCallerWrite : Event → Bool
  | Event.Fprint _ => true
  | Event.httpError _ _ => true
  | _ => false

/-- The event runs the plugin. -/
def isRun : Event → Bool
  | Event.CombinedOutput _ _ => true
  | _ => false

/-- The event is a call of `SendErrorToSlack`. -/
def isSlackCall : Event → Bool
  | Event.callSendErrorToSlack _ _ => true
  | _ => false

/-- The event is a call of `SendErrorToSlack` or happens inside one. -/
def isSlack : Event → Bool
  | Event.callSendErrorToSlack _ _ => true
  | Event.httpPost _ _ _ => true
  | Event.closeBody => true
  | Event.Printf _ => true
  | _ => false

/-- The event increments a statsd counter. -/
def isIncrement : Event → Bool
  | Event.Increment _ => true
  | _ => false

/-- The event is the POST to the webhook. -/
def isPost : Event → Bool
  | Event.httpPost _ _ _ => true
  | _ => false

/-- The audit line of an accepted request (lines 31-38 of `utilities.go`). -/
def auditLine (env : Env) (q : Values) : String :=
  "Time: [" ++ env.now ++ "] :: User: [ " ++ q.Get "user_name" ++
    " ] attempted to use loader: [ " ++ q.Get "loader" ++ " ] to execute plugin: [ " ++
    q.Get "plugin" ++ " ] with args: [ " ++ q.Get "text" ++ " ]\n"

/-- What one turn of the loop of `prepareCommandLineArgSyntax` appends for an entry whose
slice is not empty. -/
def entryTokens (loader : String) (kv : String × List String) : List String :=
  if kv.1 = "plugin" ∨ kv.1 = "loader" then []
  else if loader = "python" then ["-" ++ kv.1, "\"" ++ kv.2.headD "" ++ "\""]
  else if loader = "go" then ["--" ++ kv.1 ++ "=\"" ++ kv.2.headD "" ++ "\""]
  else []

/-- The entries of the query that are parameters of the plugin: every key but the two routing
keys. -/
def pluginParameters (q : Values) : Values :=
  q.filter (fun kv => decide (¬ (kv.1 = "plugin" ∨ kv.1 = "loader")))

/-! ## Concrete requests and environments -/

/-- A request for the go loader with one parameter. -/
def sampleGoQuery : Values :=
  [("plugin", ["deploy.go"]), ("loader", ["go"]), ("env", ["prod"])]

/-- An environment where the log file cannot be opened. -/
def envAuditDown : Env :=
  { now := "Monday, 02-Nov-26 10:00:00 UTC", openErr := some "permission denied", writeErr := none,
    run := fun _ _ => ("ok", none), newRequestErr := none, postErr := none }

/-- An environment where the audit succeeds and the plugin prints `ok` and exits with success. -/
def envOk : Env :=
  { now := "Monday, 02-Nov-26 10:00:00 UTC", openErr := none, writeErr := none,
    run := fun _ _ => ("ok", none), newRequestErr := none, postErr := none }

/-- An environment where the audit succeeds and the plugin prints `boom` and fails. -/
def envPluginFails : Env :=
  { now := "Monday, 02-Nov-26 10:00:00 UTC", openErr := none, writeErr := none,
    run := fun _ _ => ("boom", some "exit status 1"), newRequestErr := none, postErr := none }

/-- An environment where the audit succeeds, the plugin prints `boom` and fails, and
`http.NewRequest` refuses the `response_url`. -/
def envBadCallback : Env :=
  { now := "Monday, 02-Nov-26 10:00:00 UTC", openErr := none, writeErr := none,
    run := fun _ _ => ("boom", some "exit status 1"),
    newRequestErr := some "parse \"%zz\": invalid URL escape \"%zz\"", postErr := none }

/-- A request in synchronous mode. -/
def sampleSyncQuery : Values :=
  [("plugin", ["deploy.py"]), ("loader", ["python"]), ("jobRunnerUrl", ["http://jenkins/job/1"])]

/-- A request in asynchronous mode. -/
def sampleAsyncQuery : Values :=
  [("plugin", ["deploy.py"]), ("loader", ["python"]),
    ("response_url", ["https://hooks.slack.example/1"]), ("text", ["now"])]

/-- A request in asynchronous mode whose `response_url` is not a URL. -/
def badCallbackQuery : Values :=
  [("plugin", ["deploy.py"]), ("loader", ["python"]), ("response_url", ["%zz"])]

/-- A request whose plugin parameter climbs out of the plugin directory. -/
def traversalQuery : Values :=
  [("plugin", ["../../../bin/ls"]), ("loader", ["python"])]

/-- A request for the python3 loader with one parameter. -/
def samplePython3Query : Values :=
  [("plugin", ["report.py"]), ("loader", ["python3"]), ("env", ["prod"])]

/-! ## Lemmas on the loader registry and on the translation loop -/

theorem mem_registeredLoaders (loader : String) :
    loader ∈ registeredLoaders ↔
      loader = "python" ∨ loader = "python3" ∨ loader = "node" ∨ loader = "go" := by
  simp [registeredLoaders]

theorem resolveLoader_registered (loader : String) (h : loader ∈ registeredLoaders) :
    ∃ cmd first rest, (loader, cmd) ∈ loaderOpts ∧ resolveLoader loader = (true, cmd) ∧
      Fields cmd = first :: rest ∧ cmd.utf8ByteSize > 1 := by
  rw [mem_registeredLoaders] at h
  rcases h with rfl | rfl | rfl | rfl
  · exact ⟨"python", "python", [], by decide, by decide, by decide, by decide⟩
  · exact ⟨"python3", "python3", [], by decide, by decide, by decide, by decide⟩
  · exact ⟨"node", "node", [], by decide, by decide, by decide, by decide⟩
  · exact ⟨"go run", "go", ["run"], by decide, by decide, by decide, by decide⟩

theorem resolveLoader_unregistered (loader : String) (h : loader ∉ registeredLoaders) :
    resolveLoader loader = (false, "") := by
  rw [mem_registeredLoaders] at h
  push_neg at h
  obtain ⟨h1, h2, h3, h4⟩ := h
  simp [resolveLoader, loaderOpts, List.foldl, Ne.symm h1, Ne.symm h2, Ne.symm h3, Ne.symm h4]

theorem resolveLoader_fst (loader : String) :
    (resolveLoader loader).1 = true ↔ loader ∈ registeredLoaders := by
  constructor
  · intro h
    by_contra hn
    rw [resolveLoader_unregistered loader hn] at h
    exact absurd h (by decide)
  · intro h
    obtain ⟨cmd, _, _, _, hr, _, _⟩ := resolveLoader_registered loader h
    rw [hr]

/-- On a parsed query the translation loop does not panic. -/
theorem prepareLoop_parsed (loader : String) (q : Values) (hq : q.Parsed) (acc : List String) :
    ∃ args, prepareLoop loader acc q = some args := by
  induction q generalizing acc with
  | nil => exact ⟨acc, rfl⟩
  | cons kv rest ih =>
    obtain ⟨key, value⟩ := kv
    have hrest : Values.Parsed rest := fun x hx => hq x (List.mem_cons_of_mem _ hx)
    have hval : value ≠ [] := hq (key, value) (List.mem_cons_self _ _)
    cases value with
    | nil => exact absurd rfl hval
    | cons v0 vs =>
      unfold prepareLoop
      split_ifs
      · exact ih hrest acc
      · exact ih hrest _
      · exact ih hrest _
      · exact ih hrest acc

theorem prepareCommandLineArgSyntax_parsed (loader : String) (q : Values) (hq : q.Parsed) :
    ∃ args, prepareCommandLineArgSyntax loader q = some args :=
  prepareLoop_parsed loader q hq []

/-- The command built for a request with a plugin name and a registered loader, when the
translation of the parameters gives `args`. -/
theorem buildCommand_accepted (q : Values) (hp : q.Get "plugin" ≠ "")
    (hl : q.Get "loader" ∈ registeredLoaders) (args : List String)
    (ha : prepareCommandLineArgSyntax (q.Get "loader") q = some args) :
    ∃ cmd first rest, (q.Get "loader", cmd) ∈ loaderOpts ∧ Fields cmd = first :: rest ∧
      buildCommand q = Built.command first
        (rest ++ [pluginPath (q.Get "loader") (q.Get "plugin")] ++ args) := by
  obtain ⟨cmd, first, rest, hmem, hres, hf, hlen⟩ := resolveLoader_registered _ hl
  refine ⟨cmd, first, rest, hmem, hf, ?_⟩
  simp [buildCommand, hres, hp, hf, ha, hlen, pluginPath]

/-- A request without a plugin name or without a registered loader builds nothing. -/
theorem buildCommand_rejected (q : Values)
    (h : q.Get "plugin" = "" ∨ q.Get "loader" ∉ registeredLoaders) :
    buildCommand q = Built.rejected := by
  rcases h with h | h
  · simp [buildCommand, h]
  · simp [buildCommand, resolveLoader_unregistered _ h]

/-- The handler refuses exactly the requests that build nothing. -/
theorem buildCommand_rejected_iff (q : Values) :
    buildCommand q = Built.rejected ↔
      (q.Get "plugin" = "" ∨ q.Get "loader" ∉ registeredLoaders) := by
  refine ⟨fun h => ?_, buildCommand_rejected q⟩
  by_contra hn
  push_neg at hn
  obtain ⟨hp, hl⟩ := hn
  obtain ⟨cmd, first, rest, hmem, hres, hf, hlen⟩ := resolveLoader_registered _ hl
  cases ha : prepareCommandLineArgSyntax (q.Get "loader") q with
  | none => simp [buildCommand, hres, hp, hf, ha] at h
  | some args => simp [buildCommand, hres, hp, hf, ha] at h

/-! ## Lemmas on the trace of a request -/

theorem initializeHandler_rejected (env : Env) (q : Values)
    (h : buildCommand q = Built.rejected) :
    initializeHandler env q = some [Event.httpError rejectText 400] := by
  simp [initializeHandler, h, rejectText]

theorem initializeHandler_command (env : Env) (q : Values) (exe : String) (args : List String)
    (h : buildCommand q = Built.command exe args) :
    initializeHandler env q = some (serve env q exe args) := by
  simp [initializeHandler, h]

/-- The function `LogEvent` returns no error exactly when the file opens and the write
succeeds; it has then opened the file, written the line and closed the file. -/
theorem LogEvent_ok (env : Env) (log plugin loader : String) (q : Values) :
    (LogEvent env log plugin loader q).2 = none ↔ env.openErr = none ∧ env.writeErr = none := by
  unfold LogEvent
  cases env.openErr <;> cases env.writeErr <;> simp

/-- The function `LogEvent` runs no plugin, increments no counter, starts no goroutine and
sends nothing to Slack. -/
theorem LogEvent_events (env : Env) (log plugin loader : String) (q : Values) :
    ∀ e ∈ (LogEvent env log plugin loader q).1,
      isRun e = false ∧ isIncrement e = false ∧ isSlack e = false ∧ e ≠ Event.goStmt := by
  unfold LogEvent
  cases env.openErr <;> cases env.writeErr <;> simp [isRun, isIncrement, isSlack]

/-- When `LogEvent` returns an error it has written the notification to the caller. -/
theorem LogEvent_error_notifies (env : Env) (log plugin loader : String) (q : Values)
    (err : String) (h : (LogEvent env log plugin loader q).2 = some err) :
    Event.Fprint userNotificationErrorMsg ∈ (LogEvent env log plugin loader q).1 := by
  unfold LogEvent at h ⊢
  cases ho : env.openErr <;> cases hw : env.writeErr <;> simp_all

/-- The trace of an accepted request whose audit fails. -/
theorem serve_audit_error (env : Env) (q : Values) (exe : String) (args : List String)
    (err : String)
    (h : (LogEvent env "plugin-execution.log" (q.Get "plugin") (q.Get "loader") q).2 = some err) :
    serve env q exe args =
      [Event.Fprint (ackText (q.Get "plugin"))] ++
        (LogEvent env "plugin-execution.log" (q.Get "plugin") (q.Get "loader") q).1 ++
        [Event.logPrint ("Error logging event. " ++ err ++ "\nAborted execution.\n")] := by
  simp [serve, h]

/-- The trace of an accepted request whose audit succeeds. -/
theorem serve_audit_ok (env : Env) (q : Values) (exe : String) (args : List String)
    (h : (LogEvent env "plugin-execution.log" (q.Get "plugin") (q.Get "loader") q).2 = none) :
    serve env q exe args =
      [Event.Fprint (ackText (q.Get "plugin"))] ++
        (LogEvent env "plugin-execution.log" (q.Get "plugin") (q.Get "loader") q).1 ++
        [Event.Increment (statsdPluginRegex_ReplaceAllString (q.Get "plugin"))] ++
        execute env q exe args := by
  simp [serve, h]

/-- No step after the building of the command answers with a status other than 500. -/
theorem serve_httpError_code (env : Env) (q : Values) (exe : String) (args : List String)
    (text : String) (code : Nat) (h : Event.httpError text code ∈ serve env q exe args) :
    code = 500 := by
  unfold serve execute SendErrorToSlack LogEvent at h
  cases ho : env.openErr <;> cases hw : env.writeErr <;> cases hr : (env.run exe args).2 <;>
    cases hn : env.newRequestErr <;> cases hs : env.postErr <;>
    by_cases hj : q.Get "jobRunnerUrl" = "" <;>
    simp [ho, hw, hr, hn, hs, hj] at h <;> exact h.2

/-- The only command a request runs is the one it built. -/
theorem serve_run_event (env : Env) (q : Values) (exe : String) (args : List String)
    (name : String) (a : List String) (h : Event.CombinedOutput name a ∈ serve env q exe args) :
    name = exe ∧ a = args := by
  unfold serve execute SendErrorToSlack LogEvent at h
  cases ho : env.openErr <;> cases hw : env.writeErr <;> cases hr : (env.run exe args).2 <;>
    cases hn : env.newRequestErr <;> cases hs : env.postErr <;>
    by_cases hj : q.Get "jobRunnerUrl" = "" <;>
    simp [ho, hw, hr, hn, hs, hj] at h <;> exact h

/-- A parsed request with a plugin name and a registered loader builds a command. -/
theorem accepted_builds (q : Values) (hp : q.Get "plugin" ≠ "")
    (hl : q.Get "loader" ∈ registeredLoaders) (hq : q.Parsed) :
    ∃ exe args, buildCommand q = Built.command exe args := by
  obtain ⟨args, ha⟩ := prepareCommandLineArgSyntax_parsed (q.Get "loader") q hq
  obtain ⟨_, first, rest, _, _, hb⟩ := buildCommand_accepted q hp hl args ha
  exact ⟨first, _, hb⟩

/-- The trace of an accepted request whose audit succeeds, up to the execution. -/
theorem serve_audited (env : Env) (q : Values) (exe : String) (args : List String)
    (ho : env.openErr = none) (hw : env.writeErr = none) :
    serve env q exe args =
      [Event.Fprint (ackText (q.Get "plugin")), Event.OpenFile "plugin-execution.log",
        Event.WriteString "plugin-execution.log" (auditLine env q),
        Event.Close "plugin-execution.log",
        Event.Increment (statsdPluginRegex_ReplaceAllString (q.Get "plugin"))] ++
        execute env q exe args := by
  simp [serve, LogEvent, ho, hw, auditLine]

/-- The function `SendErrorToSlack` panics exactly when `http.NewRequest` fails; otherwise it
makes one POST, of the payload built from the output to the URL it was given, and one more call
for the result of the POST. -/
theorem SendErrorToSlack_events (env : Env) (url output : String) :
    (env.newRequestErr ≠ none → SendErrorToSlack env url output = none) ∧
    (env.newRequestErr = none →
      ∃ last, SendErrorToSlack env url output =
          some [Event.httpPost url "application/json" (errorPayload output), last] ∧
        isSlack last = true ∧ isPost last = false ∧ isRun last = false ∧
        isSlackCall last = false) := by
  unfold SendErrorToSlack
  cases env.newRequestErr <;> cases env.postErr <;> simp [isSlack, isPost, isRun, isSlackCall]

theorem prepareLoop_eq (loader : String) (q : Values) (hq : q.Parsed) (acc : List String) :
    prepareLoop loader acc q = some (acc ++ q.flatMap (entryTokens loader)) := by
  induction q generalizing acc with
  | nil => simp [prepareLoop]
  | cons kv rest ih =>
    obtain ⟨key, value⟩ := kv
    have hrest : Values.Parsed rest := fun x hx => hq x (List.mem_cons_of_mem _ hx)
    have hval : value ≠ [] := hq (key, value) (List.mem_cons_self _ _)
    cases value with
    | nil => exact absurd rfl hval
    | cons v0 vs =>
      unfold prepareLoop
      split_ifs with h1 h2 h3
      · rw [ih hrest]; simp [entryTokens, h1]
      · dsimp only; rw [ih hrest]; simp [entryTokens, h1, h2]
      · dsimp only; rw [ih hrest]; simp [entryTokens, h1, h2, h3]
      · rw [ih hrest]; simp [entryTokens, h1, h2, h3]

/-- The translation of a parsed query, entry by entry. -/
theorem prepareCommandLineArgSyntax_eq (loader : String) (q : Values) (hq : q.Parsed) :
    prepareCommandLineArgSyntax loader q = some (q.flatMap (entryTokens loader)) := by
  simp [prepareCommandLineArgSyntax, prepareLoop_eq loader q hq]

theorem length_flatMap_entryTokens (loader : String) (q : Values) :
    (q.flatMap (entryTokens loader)).length =
      (if loader = "python" then 2 else if loader = "go" then 1 else 0) *
        (pluginParameters q).length := by
  induction q with
  | nil => simp [pluginParameters]
  | cons kv rest ih =>
    simp only [List.flatMap_cons, List.length_append, ih, pluginParameters, List.filter_cons]
    by_cases h1 : kv.1 = "plugin" ∨ kv.1 = "loader"
    · simp [entryTokens, h1]
    · by_cases h2 : loader = "python"
      · simp [entryTokens, h1, h2]; ring
      · by_cases h3 : loader = "go"
        · simp [entryTokens, h1, h2, h3]; ring
        · simp [entryTokens, h1, h2, h3]

/-- The length of the translated list: two tokens a parameter for python, one for go, and none
at all for any other loader, python3 and node included. -/
theorem translated_length (loader : String) (q : Values) (hq : q.Parsed) :
    ∃ args, prepareCommandLineArgSyntax loader q = some args ∧
      args.length =
        (if loader = "python" then 2 else if loader = "go" then 1 else 0) *
          (pluginParameters q).length :=
  ⟨_, prepareCommandLineArgSyntax_eq loader q hq, length_flatMap_entryTokens loader q⟩

/-- Inside a match of the pattern, a run of word characters is consumed whole. -/
theorem dropDotWord_words (cs : List Char) (h : ∀ c ∈ cs, isWordChar c = true) :
    dropDotWord true cs = [] := by
  induction cs with
  | nil => rfl
  | cons c cs ih =>
    have hc : isWordChar c = true := h c (List.mem_cons_self _ _)
    simp [dropDotWord, hc, ih (fun d hd => h d (List.mem_cons_of_mem _ hd))]

/-- A name without a dot is left as it is. -/
theorem dropDotWord_no_dot (cs : List Char) (h : Char.ofNat 46 ∉ cs) :
    dropDotWord false cs = cs := by
  induction cs with
  | nil => rfl
  | cons c cs ih =>
    have hc : c ≠ Char.ofNat 46 := fun e => h (e ▸ List.mem_cons_self _ _)
    have hcs : Char.ofNat 46 ∉ cs := fun e => h (List.mem_cons_of_mem _ e)
    simp [dropDotWord, hc, ih hcs]

/-- A name `base.ext`, with no dot in `base` and `ext` a non-empty run of word characters, is
mapped to `base`. -/
theorem dropDotWord_base_ext (base ext : List Char) (hb : Char.ofNat 46 ∉ base)
    (hne : ext ≠ []) (he : ∀ c ∈ ext, isWordChar c = true) :
    dropDotWord false (base ++ Char.ofNat 46 :: ext) = base := by
  induction base with
  | nil =>
    cases ext with
    | nil => exact absurd rfl hne
    | cons e es =>
      have h0 : isWordChar e = true := he e (List.mem_cons_self _ _)
      have := dropDotWord_words es (fun d hd => he d (List.mem_cons_of_mem _ hd))
      simp [dropDotWord, h0, this]
  | cons c cs ih =>
    have hc : c ≠ Char.ofNat 46 := fun e => hb (e ▸ List.mem_cons_self _ _)
    have hcs : Char.ofNat 46 ∉ cs := fun e => hb (List.mem_cons_of_mem _ e)
    simp [dropDotWord, hc, ih hcs]

/-! ## The claims -/

/-- C1. The handler refuses a request, with status 400, if and only if the plugin parameter is
empty or the loader parameter is not one of python, python3, node, go; and the trace of a refused
request is the single call of `http.Error` with the fixed text and 400: nothing is written
before it, no audit line is logged, no counter is incremented, no process is run. -/
theorem reject_iff_invalid (env : Env) (q : Values) :
    (Rejects env q ↔
      (q.Get "plugin" = "" ∨ q.Get "loader" ∉ ["python", "python3", "node", "go"])) ∧
    (Rejects env q →
      initializeHandler env q =
        some [Event.httpError "Plugin request not in appropriate format.\n" 400]) := by
  have key : Rejects env q → buildCommand q = Built.rejected := by
    rintro ⟨tr, htr, text, hmem⟩
    cases hb : buildCommand q with
    | rejected => rfl
    | panicked => simp [initializeHandler, hb] at htr
    | command exe args =>
      rw [initializeHandler_command env q exe args hb] at htr
      cases htr
      exact absurd (serve_httpError_code env q exe args text 400 hmem) (by decide)
  refine ⟨⟨fun h => (buildCommand_rejected_iff q).1 (key h), fun h => ?_⟩, fun h => ?_⟩
  · refine ⟨_, initializeHandler_rejected env q (buildCommand_rejected q h), rejectText, ?_⟩
    simp
  · exact initializeHandler_rejected env q (key h)

/-- C4. For an accepted request (plugin not empty, loader registered, query as parsed) the
command of the registered loader has a first whitespace-separated token, which is the executable;
the arguments are the remaining tokens, then the one path `/opt/slack-plugins/<loader>/<plugin>`,
then the translated arguments in order. Loader go gives `go` and arguments beginning with `run`
and the path, loader python gives `python` and arguments beginning with the path. The command the
handler runs, when it runs one, is this command. -/
theorem built_command_shape (q : Values) (hp : q.Get "plugin" ≠ "")
    (hl : q.Get "loader" ∈ ["python", "python3", "node", "go"]) (hq : q.Parsed) :
    ∃ cmd first rest translated,
      (q.Get "loader", cmd) ∈ loaderOpts ∧ Fields cmd = first :: rest ∧
      prepareCommandLineArgSyntax (q.Get "loader") q = some translated ∧
      buildCommand q = Built.command first
        (rest ++ ["/opt/slack-plugins/" ++ q.Get "loader" ++ "/" ++ q.Get "plugin"] ++
          translated) ∧
      (q.Get "loader" = "go" → first = "go" ∧ rest = ["run"]) ∧
      (q.Get "loader" = "python" → first = "python" ∧ rest = []) ∧
      (∀ env tr, initializeHandler env q = some tr →
        ∀ name a, Event.CombinedOutput name a ∈ tr →
          name = first ∧
          a = rest ++ ["/opt/slack-plugins/" ++ q.Get "loader" ++ "/" ++ q.Get "plugin"] ++
            translated) := by
  obtain ⟨translated, ha⟩ := prepareCommandLineArgSyntax_parsed (q.Get "loader") q hq
  obtain ⟨cmd, first, rest, hmem, hf, hb⟩ := buildCommand_accepted q hp hl translated ha
  refine ⟨cmd, first, rest, translated, hmem, hf, ha, hb, ?_, ?_, ?_⟩
  · intro hgo
    rw [hgo] at hmem
    have hc : cmd = "go run" := by simpa [loaderOpts] using hmem
    subst hc
    have hfields : Fields "go run" = ["go", "run"] := by decide
    rw [hfields] at hf
    simp only [List.cons.injEq] at hf
    exact ⟨hf.1.symm, hf.2.symm⟩
  · intro hpy
    rw [hpy] at hmem
    have hc : cmd = "python" := by simpa [loaderOpts] using hmem
    subst hc
    have hfields : Fields "python" = ["python"] := by decide
    rw [hfields] at hf
    simp only [List.cons.injEq] at hf
    exact ⟨hf.1.symm, hf.2.symm⟩
  · intro env tr htr name a hmemtr
    rw [initializeHandler_command env q _ _ hb] at htr
    cases htr
    exact serve_run_event env q _ _ name a hmemtr

/-- C4 at a concrete request: the hypotheses hold there. -/
theorem built_command_shape_witness :
    sampleGoQuery.Get "plugin" ≠ "" ∧
    sampleGoQuery.Get "loader" ∈ ["python", "python3", "node", "go"] ∧ sampleGoQuery.Parsed ∧
    buildCommand sampleGoQuery =
      Built.command "go" ["run", "/opt/slack-plugins/go/deploy.go", "--env=\"prod\""] ∧
    ∃ cmd first rest translated,
      (sampleGoQuery.Get "loader", cmd) ∈ loaderOpts ∧ Fields cmd = first :: rest ∧
      prepareCommandLineArgSyntax (sampleGoQuery.Get "loader") sampleGoQuery = some translated ∧
      buildCommand sampleGoQuery = Built.command first
        (rest ++ ["/opt/slack-plugins/" ++ sampleGoQuery.Get "loader" ++ "/" ++
          sampleGoQuery.Get "plugin"] ++ translated) ∧
      (sampleGoQuery.Get "loader" = "go" → first = "go" ∧ rest = ["run"]) ∧
      (sampleGoQuery.Get "loader" = "python" → first = "python" ∧ rest = []) ∧
      (∀ env tr, initializeHandler env sampleGoQuery = some tr →
        ∀ name a, Event.CombinedOutput name a ∈ tr →
          name = first ∧
          a = rest ++ ["/opt/slack-plugins/" ++ sampleGoQuery.Get "loader" ++ "/" ++
            sampleGoQuery.Get "plugin"] ++ translated) :=
  ⟨by decide, by decide, by decide, by decide,
    built_command_shape sampleGoQuery (by decide) (by decide) (by decide)⟩

/-- C5. For an accepted request the whole of `LogEvent` comes before any run of the plugin: the
trace is the acknowledgment, the events of `LogEvent`, and then the rest, and no plugin runs in
the first two. If `LogEvent` returns an error the handler stops there: it increments no counter,
runs no process, starts no goroutine, and the caller has been sent the notification of the audit
failure. -/
theorem audit_failure_stops (env : Env) (q : Values) (hp : q.Get "plugin" ≠ "")
    (hl : q.Get "loader" ∈ ["python", "python3", "node", "go"]) (hq : q.Parsed) :
    ∃ tr rest, initializeHandler env q = some tr ∧
      tr = [Event.Fprint (ackText (q.Get "plugin"))] ++
        (LogEvent env "plugin-execution.log" (q.Get "plugin") (q.Get "loader") q).1 ++ rest ∧
      (∀ e ∈ [Event.Fprint (ackText (q.Get "plugin"))] ++
          (LogEvent env "plugin-execution.log" (q.Get "plugin") (q.Get "loader") q).1,
        isRun e = false) ∧
      (∀ err,
        (LogEvent env "plugin-execution.log" (q.Get "plugin") (q.Get "loader") q).2 = some err →
          rest = [Event.logPrint ("Error logging event. " ++ err ++ "\nAborted execution.\n")] ∧
          tr.filter isIncrement = [] ∧ tr.filter isRun = [] ∧ Event.goStmt ∉ tr ∧
          Event.Fprint userNotificationErrorMsg ∈ tr) := by
  obtain ⟨exe, args, hb⟩ := accepted_builds q hp hl hq
  have hev := LogEvent_events env "plugin-execution.log" (q.Get "plugin") (q.Get "loader") q
  have hpre : ∀ e ∈ [Event.Fprint (ackText (q.Get "plugin"))] ++
      (LogEvent env "plugin-execution.log" (q.Get "plugin") (q.Get "loader") q).1,
      isRun e = false := by
    intro e he
    rcases List.mem_append.1 he with h | h
    · simp only [List.mem_singleton] at h
      subst h
      rfl
    · exact (hev e h).1
  cases hlog : (LogEvent env "plugin-execution.log" (q.Get "plugin") (q.Get "loader") q).2 with
  | none =>
    refine ⟨_, _, initializeHandler_command env q exe args hb,
      by rw [serve_audit_ok env q exe args hlog, List.append_assoc], hpre, ?_⟩
    intro err herr
    exact absurd herr (by simp)
  | some err0 =>
    refine ⟨_, _, initializeHandler_command env q exe args hb,
      serve_audit_error env q exe args err0 hlog, hpre, ?_⟩
    intro err herr
    have herr0 : err0 = err := by simpa using herr
    subst herr0
    rw [serve_audit_error env q exe args err0 hlog]
    refine ⟨rfl, ?_, ?_, ?_, ?_⟩
    · simp only [List.filter_append, List.filter_eq_nil_iff, List.append_eq_nil]
      refine ⟨⟨by simp [isIncrement], fun e he => ?_⟩, by simp [isIncrement]⟩
      simp [(hev e he).2.1]
    · simp only [List.filter_append, List.filter_eq_nil_iff, List.append_eq_nil]
      refine ⟨⟨by simp [isRun], fun e he => ?_⟩, by simp [isRun]⟩
      simp [(hev e he).1]
    · intro hgo
      simp only [List.mem_append, List.mem_singleton] at hgo
      rcases hgo with (h | h) | h
      · cases h
      · exact (hev _ h).2.2.2 rfl
      · cases h
    · have := LogEvent_error_notifies env _ _ _ q err0 hlog
      simp [this]

/-- C5 at a concrete request whose audit fails: the hypotheses hold there. -/
theorem audit_failure_stops_witness :
    sampleGoQuery.Get "plugin" ≠ "" ∧
    sampleGoQuery.Get "loader" ∈ ["python", "python3", "node", "go"] ∧ sampleGoQuery.Parsed ∧
    initializeHandler envAuditDown sampleGoQuery =
      some [Event.Fprint "Executing plugin: deploy.go. It should send additional output shortly...\n",
        Event.OpenFile "plugin-execution.log",
        Event.Fprint
          "Error opening or writing plugin execution to log.  Aborting.  Please contact Devops",
        Event.logPrint ("Error logging event. Error opening plugin-execution.log for append." ++
          "  Reason: permission denied.\nAborted execution.\n")] ∧
    ∃ tr rest, initializeHandler envAuditDown sampleGoQuery = some tr ∧
      tr = [Event.Fprint (ackText (sampleGoQuery.Get "plugin"))] ++
        (LogEvent envAuditDown "plugin-execution.log" (sampleGoQuery.Get "plugin")
          (sampleGoQuery.Get "loader") sampleGoQuery).1 ++ rest ∧
      (∀ e ∈ [Event.Fprint (ackText (sampleGoQuery.Get "plugin"))] ++
          (LogEvent envAuditDown "plugin-execution.log" (sampleGoQuery.Get "plugin")
            (sampleGoQuery.Get "loader") sampleGoQuery).1,
        isRun e = false) ∧
      (∀ err,
        (LogEvent envAuditDown "plugin-execution.log" (sampleGoQuery.Get "plugin")
          (sampleGoQuery.Get "loader") sampleGoQuery).2 = some err →
          rest = [Event.logPrint ("Error logging event. " ++ err ++ "\nAborted execution.\n")] ∧
          tr.filter isIncrement = [] ∧ tr.filter isRun = [] ∧ Event.goStmt ∉ tr ∧
          Event.Fprint userNotificationErrorMsg ∈ tr) :=
  ⟨by decide, by decide, by decide, by decide,
    audit_failure_stops envAuditDown sampleGoQuery (by decide) (by decide) (by decide)⟩

/-- C6, as stated, fails: in synchronous mode with a plugin that succeeds and prints `ok`, the
acknowledgment is written, and the caller gets two writes, the acknowledgment and then `ok`, not
the one write `ok`. -/
theorem sync_ack_not_suppressed :
    (initializeHandler envOk sampleSyncQuery).map (List.filter isCallerWrite) =
      some [Event.Fprint "Executing plugin: deploy.py. It should send additional output shortly...\n",
        Event.Fprint "ok"] ∧
    (initializeHandler envOk sampleSyncQuery).map (List.filter isCallerWrite) ≠
      some [Event.Fprint "ok"] := by
  decide

/-- C6, amended. For an accepted request in synchronous mode whose audit succeeds, the plugin
runs once, in the request (no goroutine is started), the acknowledgment is written first, and
one more write to the caller follows it: the combined output of the plugin when it succeeds, the
call `http.Error` with `Failure executing <plugin>.` and 500 when it fails. -/
theorem sync_response (env : Env) (q : Values) (hp : q.Get "plugin" ≠ "")
    (hl : q.Get "loader" ∈ ["python", "python3", "node", "go"]) (hq : q.Parsed)
    (hj : q.Get "jobRunnerUrl" ≠ "") (ho : env.openErr = none) (hw : env.writeErr = none) :
    ∃ exe args tr, buildCommand q = Built.command exe args ∧
      initializeHandler env q = some tr ∧
      tr.filter isRun = [Event.CombinedOutput exe args] ∧ Event.goStmt ∉ tr ∧
      ((env.run exe args).2 = none →
        tr.filter isCallerWrite =
          [Event.Fprint
              ("Executing plugin: " ++ q.Get "plugin" ++
                ". It should send additional output shortly...\n"),
            Event.Fprint (env.run exe args).1]) ∧
      (∀ err, (env.run exe args).2 = some err →
        tr.filter isCallerWrite =
          [Event.Fprint
              ("Executing plugin: " ++ q.Get "plugin" ++
                ". It should send additional output shortly...\n"),
            Event.httpError ("Failure executing " ++ q.Get "plugin" ++ ".") 500]) := by
  obtain ⟨exe, args, hb⟩ := accepted_builds q hp hl hq
  refine ⟨exe, args, _, hb, initializeHandler_command env q exe args hb, ?_⟩
  rw [serve_audited env q exe args ho hw]
  unfold execute
  cases hr : (env.run exe args).2 <;>
    simp [hj, hr, isRun, isCallerWrite, ackText, failureText]

/-- C6 amended, at concrete requests: the hypotheses hold there. -/
theorem sync_response_witness :
    (initializeHandler envPluginFails sampleSyncQuery).map (List.filter isCallerWrite) =
      some [Event.Fprint "Executing plugin: deploy.py. It should send additional output shortly...\n",
        Event.httpError "Failure executing deploy.py." 500] ∧
    ∃ exe args tr, buildCommand sampleSyncQuery = Built.command exe args ∧
      initializeHandler envOk sampleSyncQuery = some tr ∧
      tr.filter isRun = [Event.CombinedOutput exe args] ∧ Event.goStmt ∉ tr ∧
      ((envOk.run exe args).2 = none →
        tr.filter isCallerWrite =
          [Event.Fprint
              ("Executing plugin: " ++ sampleSyncQuery.Get "plugin" ++
                ". It should send additional output shortly...\n"),
            Event.Fprint (envOk.run exe args).1]) ∧
      (∀ err, (envOk.run exe args).2 = some err →
        tr.filter isCallerWrite =
          [Event.Fprint
              ("Executing plugin: " ++ sampleSyncQuery.Get "plugin" ++
                ". It should send additional output shortly...\n"),
            Event.httpError ("Failure executing " ++ sampleSyncQuery.Get "plugin" ++ ".") 500]) :=
  ⟨by decide,
    sync_response envOk sampleSyncQuery (by decide) (by decide) (by decide) (by decide) rfl rfl⟩

/-- C7. For an accepted request in asynchronous mode whose audit succeeds, the plugin runs
exactly once. If it succeeds, the one write to the caller is the acknowledgment, and
`SendErrorToSlack` is not called and nothing of it happens. If it fails, `SendErrorToSlack` is
called exactly once, with the `response_url` of the request and the combined output of the
plugin. Inside that call, when `http.NewRequest` takes the URL there is one POST, to that URL, of
the payload built from that output; when it refuses the URL nothing is posted and the goroutine
panics. -/
theorem async_outcome (env : Env) (q : Values) (hp : q.Get "plugin" ≠ "")
    (hl : q.Get "loader" ∈ ["python", "python3", "node", "go"]) (hq : q.Parsed)
    (hj : q.Get "jobRunnerUrl" = "") (ho : env.openErr = none) (hw : env.writeErr = none) :
    ∃ exe args tr, buildCommand q = Built.command exe args ∧
      initializeHandler env q = some tr ∧
      tr.filter isRun = [Event.CombinedOutput exe args] ∧
      ((env.run exe args).2 = none →
        tr.filter isCallerWrite =
          [Event.Fprint
            ("Executing plugin: " ++ q.Get "plugin" ++
              ". It should send additional output shortly...\n")] ∧
        tr.filter isSlack = [] ∧ Event.panic ∉ tr) ∧
      (∀ err, (env.run exe args).2 = some err →
        tr.filter isSlackCall =
          [Event.callSendErrorToSlack (q.Get "response_url") (env.run exe args).1] ∧
        (env.newRequestErr = none →
          tr.filter isPost =
            [Event.httpPost (q.Get "response_url") "application/json"
              (errorPayload (env.run exe args).1)] ∧
          Event.panic ∉ tr) ∧
        (env.newRequestErr ≠ none →
          tr.filter isPost = [] ∧ tr.getLast? = some Event.panic)) := by
  obtain ⟨exe, args, hb⟩ := accepted_builds q hp hl hq
  refine ⟨exe, args, _, hb, initializeHandler_command env q exe args hb, ?_⟩
  rw [serve_audited env q exe args ho hw]
  unfold execute SendErrorToSlack
  cases hr : (env.run exe args).2 <;> cases hn : env.newRequestErr <;>
    cases hs : env.postErr <;>
    simp [hj, hr, hn, hs, isRun, isCallerWrite, isSlack, isSlackCall, isPost, ackText]

/-- C7 at concrete requests: the hypotheses hold there. The first trace is that of a plugin
that succeeds, the second that of a plugin that fails with a `response_url` that is not a URL,
and the theorem is applied to a plugin that fails with a good `response_url`. -/
theorem async_outcome_witness :
    initializeHandler envOk sampleAsyncQuery =
      some [Event.Fprint "Executing plugin: deploy.py. It should send additional output shortly...\n",
        Event.OpenFile "plugin-execution.log",
        Event.WriteString "plugin-execution.log"
          ("Time: [Monday, 02-Nov-26 10:00:00 UTC] :: User: [  ] attempted to use loader: " ++
            "[ python ] to execute plugin: [ deploy.py ] with args: [ now ]\n"),
        Event.Close "plugin-execution.log", Event.Increment "deploy", Event.goStmt,
        Event.CombinedOutput "python"
          ["/opt/slack-plugins/python/deploy.py", "-response_url",
            "\"https://hooks.slack.example/1\"", "-text", "\"now\""],
        Event.logPrint "\nPlugin deploy.py ran with args: now -- successfully\n"] ∧
    initializeHandler envBadCallback badCallbackQuery =
      some [Event.Fprint "Executing plugin: deploy.py. It should send additional output shortly...\n",
        Event.OpenFile "plugin-execution.log",
        Event.WriteString "plugin-execution.log"
          ("Time: [Monday, 02-Nov-26 10:00:00 UTC] :: User: [  ] attempted to use loader: " ++
            "[ python ] to execute plugin: [ deploy.py ] with args: [  ]\n"),
        Event.Close "plugin-execution.log", Event.Increment "deploy", Event.goStmt,
        Event.CombinedOutput "python"
          ["/opt/slack-plugins/python/deploy.py", "-response_url", "\"%zz\""],
        Event.httpError "Failure executing deploy.py." 500,
        Event.callSendErrorToSlack "%zz" "boom", Event.panic] ∧
    ∃ exe args tr, buildCommand sampleAsyncQuery = Built.command exe args ∧
      initializeHandler envPluginFails sampleAsyncQuery = some tr ∧
      tr.filter isRun = [Event.CombinedOutput exe args] ∧
      ((envPluginFails.run exe args).2 = none →
        tr.filter isCallerWrite =
          [Event.Fprint
            ("Executing plugin: " ++ sampleAsyncQuery.Get "plugin" ++
              ". It should send additional output shortly...\n")] ∧
        tr.filter isSlack = [] ∧ Event.panic ∉ tr) ∧
      (∀ err, (envPluginFails.run exe args).2 = some err →
        tr.filter isSlackCall =
          [Event.callSendErrorToSlack (sampleAsyncQuery.Get "response_url")
            (envPluginFails.run exe args).1] ∧
        (envPluginFails.newRequestErr = none →
          tr.filter isPost =
            [Event.httpPost (sampleAsyncQuery.Get "response_url") "application/json"
              (errorPayload (envPluginFails.run exe args).1)] ∧
          Event.panic ∉ tr) ∧
        (envPluginFails.newRequestErr ≠ none →
          tr.filter isPost = [] ∧ tr.getLast? = some Event.panic)) :=
  ⟨by decide, by decide,
    async_outcome envPluginFails sampleAsyncQuery (by decide) (by decide) (by decide)
      (by decide) rfl rfl⟩

/-- C10, as stated, fails: a plugin parameter with `/` and `..` in it is accepted, its command
is built with the parameter copied into the path, and the handler runs that command. -/
theorem traversal_accepted :
    traversalQuery.Get "plugin" = "../../../bin/ls" ∧
    buildCommand traversalQuery =
      Built.command "python" ["/opt/slack-plugins/python/../../../bin/ls"] ∧
    (initializeHandler envOk traversalQuery).map (List.filter isRun) =
      some [Event.CombinedOutput "python" ["/opt/slack-plugins/python/../../../bin/ls"]] := by
  decide

/-- C10, amended. The handler asks of the plugin parameter only that it is not empty: every
parsed request with a plugin name and a registered loader builds a command, whatever characters
the name has, and the path in that command, which follows the tokens of the loader command after
the first, is `/opt/slack-plugins/<loader>/` followed by the plugin parameter as supplied. -/
theorem plugin_path_verbatim (q : Values) (hp : q.Get "plugin" ≠ "")
    (hl : q.Get "loader" ∈ ["python", "python3", "node", "go"]) (hq : q.Parsed) :
    ∃ exe pre post,
      buildCommand q = Built.command exe
        (pre ++ ("/opt/slack-plugins/" ++ q.Get "loader" ++ "/" ++ q.Get "plugin") :: post) ∧
      ∃ cmd, (q.Get "loader", cmd) ∈ loaderOpts ∧ Fields cmd = exe :: pre := by
  obtain ⟨translated, ha⟩ := prepareCommandLineArgSyntax_parsed (q.Get "loader") q hq
  obtain ⟨cmd, first, rest, hmem, hf, hb⟩ := buildCommand_accepted q hp hl translated ha
  refine ⟨first, rest, translated, ?_, cmd, hmem, hf⟩
  rw [hb]
  simp [pluginPath]

/-- C10 amended, at the request that climbs out of the plugin directory: the hypotheses hold
there. -/
theorem plugin_path_verbatim_witness :
    traversalQuery.Get "plugin" ≠ "" ∧
    traversalQuery.Get "loader" ∈ ["python", "python3", "node", "go"] ∧ traversalQuery.Parsed ∧
    ∃ exe pre post,
      buildCommand traversalQuery = Built.command exe
        (pre ++ ("/opt/slack-plugins/" ++ traversalQuery.Get "loader" ++ "/" ++
          traversalQuery.Get "plugin") :: post) ∧
      ∃ cmd, (traversalQuery.Get "loader", cmd) ∈ loaderOpts ∧ Fields cmd = exe :: pre :=
  ⟨by decide, by decide, by decide,
    plugin_path_verbatim traversalQuery (by decide) (by decide) (by decide)⟩

/-- C2, the code at the failing input. For the one parameter `env=prod` the python translation
is the two tokens `-env` and `"prod"`, and the go translation is the one token `--env="prod"`:
the value is wrapped in two literal quote characters, so the tokens are not `-env`, `prod` and
`--env=prod`. -/
theorem translated_value_is_quoted :
    prepareCommandLineArgSyntax "python" [("env", ["prod"])] = some ["-env", "\"prod\""] ∧
    prepareCommandLineArgSyntax "go" [("env", ["prod"])] = some ["--env=\"prod\""] ∧
    prepareCommandLineArgSyntax "python" [("env", ["prod"])] ≠ some ["-env", "prod"] ∧
    prepareCommandLineArgSyntax "go" [("env", ["prod"])] ≠ some ["--env=prod"] := by
  decide

/-- C3, the code at the failing input. For the registered loader python3 and one parameter the
translated list is empty, of length neither 2 nor 1, and the command built carries no argument
after the path; the same for node. -/
theorem python3_parameters_dropped :
    (pluginParameters samplePython3Query).length = 1 ∧
    prepareCommandLineArgSyntax "python3" samplePython3Query = some [] ∧
    buildCommand samplePython3Query =
      Built.command "python3" ["/opt/slack-plugins/python3/report.py"] ∧
    prepareCommandLineArgSyntax "node"
      [("plugin", ["report.js"]), ("loader", ["node"]), ("env", ["prod"])] = some [] := by
  decide

/-- C9, the code at the failing input. The counter of `v1.2-deploy.sh` is `v1-deploy`: the
pattern also removes `.2` from the middle of the name, so more than the extension at the end is
changed. The two examples of the specification, `deploy.sh` and `run`, come out as stated. -/
theorem counter_name_drops_inner_match :
    statsdPluginRegex_ReplaceAllString "v1.2-deploy.sh" = "v1-deploy" ∧
    statsdPluginRegex_ReplaceAllString "v1.2-deploy.sh" ≠ "v1.2-deploy" ∧
    (initializeHandler envOk
        [("plugin", ["v1.2-deploy.sh"]), ("loader", ["python"])]).map (List.filter isIncrement) =
      some [Event.Increment "v1-deploy"] ∧
    statsdPluginRegex_ReplaceAllString "deploy.sh" = "deploy" ∧
    statsdPluginRegex_ReplaceAllString "run" = "run" := by
  decide

/-- C8, the code at the failing input. For the output `\"` (a backslash and a double quote) the
escaped text is `\\"`, whose quote closes the JSON string early: the payload is not a JSON object
with the field `text`, whether or not raw control characters are let through. Read by the letter
of RFC 8259 no payload is valid, the one of the empty output included, because the fixed prefix
has a raw line feed inside the string. An output whose only special characters are quotes, such
as `say "hi"`, does give a payload that decodes to the fenced output once the raw line feed is
let through. -/
theorem payload_not_json :
    errorPayload "\\\"" =
      "\x7b\"text\": \"exception or error occurred in plugin:\n```\\\\\"```\"\x7d" ∧
    decodeTextObject false (errorPayload "\\\"") = none ∧
    decodeTextObject true (errorPayload "\\\"") = none ∧
    decodeTextObject true (errorPayload "") = none ∧
    decodeTextObject false (errorPayload "say \"hi\"") =
      some "exception or error occurred in plugin:\n```say \"hi\"```" ∧
    decodeTextObject true "\x7b\"text\": \"say \\\"hi\\\"\"\x7d" = some "say \"hi\"" := by
  decide

end SlackCmdHandler
